import Mathlib

/-!
Verification of the TrustedGenAi attestation server (scripts/attestation_server.py).

The Python collectors shell out to external tools; each collector is embedded as a
pure function whose input is the outcome of the external invocation:
`Except f String`, where the `ok` case carries the decoded standard output and the
`error` case the classified failure.  Text processing (`in`, `.lower()`, `.strip()`,
`.split(c)`) is embedded by explicit executable functions on `List Char`.
-/

namespace Attestation

/-- Embedding of Python list/string prefix test used to build substring search. -/
def hasPre : List Char → List Char → Bool
  | [], _ => true
  | _ :: _, [] => false
  | a :: as, b :: bs => a == b && hasPre as bs

/-- Embedding of Python `pat in s` (substring containment) on character lists. -/
def hasSub (p : List Char) : List Char → Bool
  | [] => hasPre p []
  | c :: rest => hasPre p (c :: rest) || hasSub p rest

/-- Embedding of Python `pat in s` for strings. -/
def strHas (s pat : String) : Bool := hasSub pat.data s.data

/-- Embedding of Python `s.lower()`. -/
def lowerS (s : String) : String := ⟨s.data.map Char.toLower⟩

/-- Embedding of Python `s.strip()` on character lists. -/
def pyStrip (l : List Char) : List Char :=
  ((l.dropWhile Char.isWhitespace).reverse.dropWhile Char.isWhitespace).reverse

/-- Embedding of Python `s.strip()` for strings. -/
def stripS (s : String) : String := ⟨pyStrip s.data⟩

/-- Embedding of Python `s.split(c)` (single-character separator, keeps empty parts). -/
def splitChar (c : Char) : List Char → List (List Char)
  | [] => [[]]
  | a :: rest =>
    match splitChar c rest with
    | [] => [[]]
    | g :: gs => if a == c then [] :: g :: gs else (a :: g) :: gs

/-- Embedding of Python `s.split('\n')`. -/
def splitLines (s : String) : List String := (splitChar '\n' s.data).map String.mk

/-- Embedding of Python `s.split(':')`. -/
def splitColon (s : String) : List String := (splitChar ':' s.data).map String.mk

/-- Failure classification for the `tpm2_pcrread` invocation: `FileNotFoundError`,
`subprocess.TimeoutExpired`, or any other exception (message carried). -/
inductive TpmFailure where
  | fileNotFound
  | timedOut
  | otherExc (msg : String)
deriving DecidableEq

/-- Failure classification for the `nvidia-smi -q` invocation: `FileNotFoundError`
or any other exception (message carried). -/
inductive GpuErr where
  | fileNotFound
  | otherExc (msg : String)
deriving DecidableEq

/-- The attested/document JSON after `json.loads`: the optional `encoding` and
`signature` fields the code reads with `data.get`. -/
structure AzureDoc where
  encoding : Option String
  signature : Option String
deriving DecidableEq

/-- Result of `get_azure_attestation`: either the structured document or the
`{error: str(e)}` record. -/
inductive AzureResult where
  | ok (encoding signature : String)
  | err (msg : String)
deriving DecidableEq

/-- Result record of `get_gpu_tee_status`; `gpu_model` and `error` are the keys the
code adds only on some paths. -/
structure GpuStatus where
  gpu_detected : Bool
  gpu_tee_verified : Bool
  nvidia_cc_mode : String
  gpu_model : Option String
  error : Option String
deriving DecidableEq

/-- Embedding of `get_tee_platform`: classify the TEE platform from the dmesg text;
any exception while reading dmesg yields "Unknown". -/
def get_tee_platform : Except String String → String
  | .error _ => "Unknown"
  | .ok dmesg =>
    if strHas dmesg "Intel TDX" || strHas (lowerS dmesg) "tdx" then "Intel-TDX"
    else if strHas dmesg "SEV-SNP" || strHas (lowerS dmesg) "sev" then "AMD-SEV-SNP"
    else if strHas dmesg "Memory Encryption" then "AMD-SEV-SNP"
    else "Unknown"

/-- The keyword list of `get_tee_dmesg_lines`. -/
def tee_keywords : List String := ["tdx", "sev", "memory encryption", "confidential", "encrypted"]

/-- Embedding of `get_tee_dmesg_lines`: keep the lines whose lower-cased form contains
a keyword, stripped, first 10; a read failure yields the single synthetic line. -/
def get_tee_dmesg_lines : Except String String → List String
  | .error e => ["Error reading dmesg: " ++ e]
  | .ok dmesg =>
    ((((splitLines dmesg).filter
        (fun line => tee_keywords.any (fun kw => strHas (lowerS line) kw))).map stripS).take 10)

/-- Embedding of `get_azure_attestation`: extract `encoding` (default "unknown") and
`signature` (default ""), truncating the signature to 200 characters plus "..." when
longer than 200; any failure yields the error record. -/
def get_azure_attestation : Except String AzureDoc → AzureResult
  | .error e => .err e
  | .ok d =>
    let sig := d.signature.getD ""
    .ok (d.encoding.getD "unknown")
      (if sig.length > 200 then ⟨sig.data.take 200⟩ ++ "..." else sig)

/-- The error message `get_tpm_pcr_values` stores for each failure class. -/
def tpmFailureReason : TpmFailure → String
  | .fileNotFound => "tpm2-tools not installed"
  | .timedOut => "TPM read timeout"
  | .otherExc m => m

/-- Embedding of one iteration of the `tpm2_pcrread` output parsing loop: a line
yields an entry iff it contains ':' and "0x"; the stripped line is split on colons
and the first two parts, stripped, give label and value. -/
def parse_pcr_line (line : String) : Option (String × String) :=
  if strHas line ":" && strHas line "0x" then
    match splitColon (stripS line) with
    | k :: v :: _ => some (stripS k, stripS v)
    | _ => none
  else none

/-- Python dict insertion on an association list: replace in place or append. -/
def dictInsert (m : List (String × String)) (k v : String) : List (String × String) :=
  if m.any (fun p => p.1 == k) then m.map (fun p => if p.1 == k then (k, v) else p)
  else m ++ [(k, v)]

/-- Embedding of `get_tpm_pcr_values`: on success parse the output line by line into
the register mapping; on failure return the single-entry error mapping. -/
def get_tpm_pcr_values : Except TpmFailure String → List (String × String)
  | .error f => [("error", tpmFailureReason f)]
  | .ok out =>
    (splitLines out).foldl
      (fun m line =>
        match parse_pcr_line line with
        | some kv => dictInsert m kv.1 kv.2
        | none => m) []

/-- Embedding of `get_gpu_tee_status`: tool missing leaves the default record;
on success set detected, derive verified/mode from the "Confidential Computing"
marker, and take the model from the first "Product Name" line (a colon-free such
line raises IndexError, caught as an error entry); any other invocation failure
records the error on the default record. -/
def get_gpu_tee_status : Except GpuErr String → GpuStatus
  | .error .fileNotFound =>
    { gpu_detected := false, gpu_tee_verified := false, nvidia_cc_mode := "unknown",
      gpu_model := none, error := none }
  | .error (.otherExc m) =>
    { gpu_detected := false, gpu_tee_verified := false, nvidia_cc_mode := "unknown",
      gpu_model := none, error := some m }
  | .ok nvidia_smi =>
    let verified := strHas nvidia_smi "Confidential Computing"
    let mode := if verified then "on" else "off"
    let modelErr : Option String × Option String :=
      match (splitLines nvidia_smi).find? (fun l => strHas l "Product Name") with
      | none => (none, none)
      | some l =>
        match splitColon l with
        | _ :: v :: _ => (some (stripS v), none)
        | _ => (none, some "list index out of range")
    { gpu_detected := true, gpu_tee_verified := verified, nvidia_cc_mode := mode,
      gpu_model := modelErr.1, error := modelErr.2 }

/-- Embedding of `get_vm_size`: stripped curl output on success, else the `VM_SIZE`
environment value, else "Unknown". -/
def get_vm_size : Except String String → Option String → String
  | .ok s, _ => stripS s
  | .error _, env => env.getD "Unknown"

/-- The composed attestation response; the three GPU fields are `none` exactly when
the corresponding keys are absent from the Python dict. -/
structure AttestationResponse where
  platform : String
  tee_verified : Bool
  vm_size : String
  azure_attestation : AzureResult
  tpm_pcr_sha256 : List (String × String)
  tee_dmesg : List String
  timestamp : String
  gpu : Option String
  gpu_tee_verified : Option Bool
  nvidia_cc_mode : Option String
deriving DecidableEq

/-- Embedding of `AttestationHandler.handle_attestation`: each argument is the
outcome of the corresponding external invocation (the two dmesg reads are separate
subprocess calls), `env` is `os.environ.get("VM_SIZE")` and `ts` the timestamp.
Returns the HTTP status code together with the composed response. -/
def handle_attestation (pIn lIn vIn : Except String String) (env : Option String)
    (aIn : Except String AzureDoc) (tIn : Except TpmFailure String)
    (gIn : Except GpuErr String) (ts : String) : Nat × AttestationResponse :=
  let plat := get_tee_platform pIn
  let gpu_status := get_gpu_tee_status gIn
  (200,
    { platform := plat,
      tee_verified := plat == "Intel-TDX" || plat == "AMD-SEV-SNP",
      vm_size := get_vm_size vIn env,
      azure_attestation := get_azure_attestation aIn,
      tpm_pcr_sha256 := get_tpm_pcr_values tIn,
      tee_dmesg := get_tee_dmesg_lines lIn,
      timestamp := ts,
      gpu := if gpu_status.gpu_detected then some (gpu_status.gpu_model.getD "NVIDIA-GPU") else none,
      gpu_tee_verified := if gpu_status.gpu_detected then some gpu_status.gpu_tee_verified else none,
      nvidia_cc_mode := if gpu_status.gpu_detected then some gpu_status.nvidia_cc_mode else none })

/-- The signature field of an `AzureResult` (empty for the error record). -/
def azureSig : AzureResult → String
  | .ok _ s => s
  | .err _ => ""

/-- A concrete signature of length 250, for exercising the truncation branch. -/
def sig250 : String := ⟨List.replicate 250 'a'⟩

/-- A concrete attested document carrying `sig250`. -/
def doc250 : AzureDoc := { encoding := some "pkcs7", signature := some sig250 }

/-- A concrete signature of length 150, below the truncation threshold. -/
def sig150 : String := ⟨List.replicate 150 'b'⟩

/-- A concrete attested document carrying `sig150`. -/
def doc150 : AzureDoc := { encoding := some "pkcs7", signature := some sig150 }

/-- Everything after the first ':' of a character list (all of it, not just up to
the next ':'). -/
def afterFirstColon : List Char → List Char
  | [] => []
  | a :: rest => if a == ':' then rest else afterFirstColon rest

/-- Modelled from the claim C7's words, for comparison with the source parser only:
the value the claim prescribes for a register line — the whole part of the line
after its first colon, trimmed. -/
def claimedTpmValue (line : String) : String := ⟨pyStrip (afterFirstColon line.data)⟩

theorem hasPre_iff (p : List Char) : ∀ s : List Char, hasPre p s = true ↔ ∃ r, s = p ++ r := by
  induction p with
  | nil => intro s; simp [hasPre]
  | cons a as ih =>
    intro s
    cases s with
    | nil => simp [hasPre]
    | cons b bs =>
      simp only [hasPre, Bool.and_eq_true, beq_iff_eq, ih bs]
      constructor
      · rintro ⟨rfl, r, rfl⟩; exact ⟨r, rfl⟩
      · rintro ⟨r, h⟩
        injection h with h1 h2
        exact ⟨h1.symm, r, h2⟩

theorem hasSub_iff (p : List Char) : ∀ s : List Char, hasSub p s = true ↔ ∃ l r, s = l ++ (p ++ r) := by
  intro s
  induction s with
  | nil =>
    simp only [hasSub, hasPre_iff]
    constructor
    · rintro ⟨r, h⟩; exact ⟨[], r, h⟩
    · rintro ⟨l, r, h⟩
      rcases List.append_eq_nil.mp h.symm with ⟨rfl, h2⟩
      exact ⟨r, by simpa using h⟩
  | cons c cs ih =>
    simp only [hasSub, Bool.or_eq_true, hasPre_iff, ih]
    constructor
    · rintro (⟨r, h⟩ | ⟨l, r, h⟩)
      · exact ⟨[], r, by simpa using h⟩
      · exact ⟨c :: l, r, by simp [h]⟩
    · rintro ⟨l, r, h⟩
      cases l with
      | nil => exact Or.inl ⟨r, by simpa using h⟩
      | cons x xs =>
        injection h with h1 h2
        exact Or.inr ⟨xs, r, h2⟩

theorem hasSub_map (f : Char → Char) (p s : List Char) (h : hasSub p s = true) :
    hasSub (p.map f) (s.map f) = true := by
  rcases (hasSub_iff p s).mp h with ⟨l, r, rfl⟩
  exact (hasSub_iff _ _).mpr ⟨l.map f, r.map f, by simp⟩

theorem hasSub_of_decomp (x q y p s : List Char) (h : hasSub p s = true)
    (hd : p = x ++ q ++ y) : hasSub q s = true := by
  subst hd
  rcases (hasSub_iff _ s).mp h with ⟨l, r, rfl⟩
  exact (hasSub_iff _ _).mpr ⟨l ++ x, y ++ r, by simp⟩

theorem hasSub_singleton (c : Char) : ∀ l : List Char, hasSub [c] l = true ↔ c ∈ l := by
  intro l
  induction l with
  | nil => simp [hasSub, hasPre]
  | cons a r ih =>
    simp only [hasSub, hasPre, Bool.or_eq_true, Bool.and_eq_true, beq_iff_eq, ih,
      List.mem_cons]
    simp

theorem mem_dropWhile_of_not (p : Char → Bool) (c : Char) (hc : p c = false) :
    ∀ l : List Char, c ∈ l → c ∈ l.dropWhile p := by
  intro l
  induction l with
  | nil => intro h; exact absurd h (List.not_mem_nil c)
  | cons a r ih =>
    intro h
    by_cases ha : p a = true
    · rw [List.dropWhile_cons_of_pos ha]
      rcases List.mem_cons.mp h with rfl | hr
      · rw [ha] at hc; exact absurd hc (by simp)
      · exact ih hr
    · rw [List.dropWhile_cons_of_neg ha]
      exact h

theorem mem_pyStrip (c : Char) (hc : Char.isWhitespace c = false) (l : List Char)
    (h : c ∈ l) : c ∈ pyStrip l := by
  unfold pyStrip
  rw [List.mem_reverse]
  apply mem_dropWhile_of_not _ _ hc
  rw [List.mem_reverse]
  exact mem_dropWhile_of_not _ _ hc l h

theorem splitChar_ne_nil (c : Char) : ∀ l : List Char, splitChar c l ≠ [] := by
  intro l
  cases l with
  | nil => simp [splitChar]
  | cons a rest =>
    unfold splitChar
    match h : splitChar c rest with
    | [] => simp
    | g :: gs =>
      by_cases hac : a == c <;> simp [hac]

theorem splitChar_two_of_mem (c : Char) :
    ∀ l : List Char, c ∈ l → ∃ k v rest, splitChar c l = k :: v :: rest := by
  intro l
  induction l with
  | nil => intro h; exact absurd h (List.not_mem_nil c)
  | cons a r ih =>
    intro h
    unfold splitChar
    match hr : splitChar c r with
    | [] => exact absurd hr (splitChar_ne_nil c r)
    | g :: gs =>
      show ∃ k v rest, (if (a == c) = true then [] :: g :: gs else (a :: g) :: gs) = k :: v :: rest
      by_cases hac : (a == c) = true
      · rw [if_pos hac]
        exact ⟨[], g, gs, rfl⟩
      · rw [if_neg hac]
        rcases List.mem_cons.mp h with hca | hmem
        · exact absurd (beq_iff_eq.mpr hca.symm) hac
        · rcases ih hmem with ⟨k, v, rest, hkv⟩
          rw [hr] at hkv
          injection hkv with h1 h2
          exact ⟨a :: g, v, rest, by rw [h2]⟩

/-- C1: for every outcome of the collectors, the `tee_verified` flag of the
attestation response is true iff the detected platform is "Intel-TDX" or
"AMD-SEV-SNP"; it depends only on the platform input (the dmesg read feeding the
platform detector) and is unchanged under any variation of the other collector
outcomes; the `platform` field is the detector's result. -/
theorem C1_tee_verified_function_of_platform
    (pIn lIn lIn2 vIn vIn2 : Except String String) (env env2 : Option String)
    (aIn aIn2 : Except String AzureDoc) (tIn tIn2 : Except TpmFailure String)
    (gIn gIn2 : Except GpuErr String) (ts ts2 : String) :
    (handle_attestation pIn lIn vIn env aIn tIn gIn ts).2.tee_verified
      = (handle_attestation pIn lIn2 vIn2 env2 aIn2 tIn2 gIn2 ts2).2.tee_verified
    ∧ ((handle_attestation pIn lIn vIn env aIn tIn gIn ts).2.tee_verified = true ↔
        get_tee_platform pIn = "Intel-TDX" ∨ get_tee_platform pIn = "AMD-SEV-SNP")
    ∧ (handle_attestation pIn lIn vIn env aIn tIn gIn ts).2.platform = get_tee_platform pIn := by
  refine ⟨rfl, ?_, rfl⟩
  simp [handle_attestation, Bool.or_eq_true, beq_iff_eq]

/-- C2: for every combination of collector failures, each collector encodes the
failure in its own slot of the response, and the request still yields a complete
200 response (the status is 200 for every combination of collector outcomes). -/
theorem C2_collector_failures_absorbed
    (ep el ev ea : String) (env : Option String) (tf : TpmFailure) (ge : GpuErr) (ts : String) :
    (handle_attestation (.error ep) (.error el) (.error ev) env (.error ea)
        (.error tf) (.error ge) ts).1 = 200
    ∧ (handle_attestation (.error ep) (.error el) (.error ev) env (.error ea)
        (.error tf) (.error ge) ts).2.platform = "Unknown"
    ∧ (handle_attestation (.error ep) (.error el) (.error ev) env (.error ea)
        (.error tf) (.error ge) ts).2.tee_verified = false
    ∧ (handle_attestation (.error ep) (.error el) (.error ev) env (.error ea)
        (.error tf) (.error ge) ts).2.vm_size = env.getD "Unknown"
    ∧ (handle_attestation (.error ep) (.error el) (.error ev) env (.error ea)
        (.error tf) (.error ge) ts).2.azure_attestation = .err ea
    ∧ (handle_attestation (.error ep) (.error el) (.error ev) env (.error ea)
        (.error tf) (.error ge) ts).2.tpm_pcr_sha256 = [("error", tpmFailureReason tf)]
    ∧ (handle_attestation (.error ep) (.error el) (.error ev) env (.error ea)
        (.error tf) (.error ge) ts).2.tee_dmesg = ["Error reading dmesg: " ++ el]
    ∧ (handle_attestation (.error ep) (.error el) (.error ev) env (.error ea)
        (.error tf) (.error ge) ts).2.gpu = none
    ∧ (handle_attestation (.error ep) (.error el) (.error ev) env (.error ea)
        (.error tf) (.error ge) ts).2.gpu_tee_verified = none
    ∧ (handle_attestation (.error ep) (.error el) (.error ev) env (.error ea)
        (.error tf) (.error ge) ts).2.nvidia_cc_mode = none
    ∧ (∀ (p l v : Except String String) (e : Option String) (a : Except String AzureDoc)
        (t : Except TpmFailure String) (g : Except GpuErr String) (s : String),
        (handle_attestation p l v e a t g s).1 = 200) := by
  refine ⟨rfl, rfl, rfl, rfl, rfl, rfl, rfl, ?_, ?_, ?_, fun _ _ _ _ _ _ _ _ => rfl⟩
  all_goals cases ge <;> rfl

/-- C5: every failing TPM read attempt yields exactly the single-entry mapping
under the key "error", with value "tpm2-tools not installed" in the tool-not-found
case; no valid register entries accompany it. -/
theorem C5_tpm_failure_single_error_entry (f : TpmFailure) :
    get_tpm_pcr_values (.error f) = [("error", tpmFailureReason f)]
    ∧ tpmFailureReason .fileNotFound = "tpm2-tools not installed" :=
  ⟨rfl, rfl⟩

/-- C6: the kernel evidence extractor never returns more than 10 lines; a
successfully read log with no matching line yields the empty sequence; and a read
failure yields exactly the one synthetic line describing it. -/
theorem C6_dmesg_lines_bounds :
    (∀ input : Except String String, (get_tee_dmesg_lines input).length ≤ 10)
    ∧ (∀ s : String,
        ((splitLines s).all
          (fun l => !(tee_keywords.any (fun kw => strHas (lowerS l) kw)))) = true →
        get_tee_dmesg_lines (.ok s) = [])
    ∧ (∀ e : String, get_tee_dmesg_lines (.error e) = ["Error reading dmesg: " ++ e]) := by
  refine ⟨?_, ?_, fun e => rfl⟩
  · intro input
    cases input with
    | error e => simp [get_tee_dmesg_lines]
    | ok s =>
      simp only [get_tee_dmesg_lines]
      exact List.length_take_le 10 _
  · intro s h
    simp only [get_tee_dmesg_lines]
    have hf : (splitLines s).filter
        (fun l => tee_keywords.any (fun kw => strHas (lowerS l) kw)) = [] := by
      rw [List.filter_eq_nil_iff]
      intro a ha
      have := (List.all_eq_true.mp h) a ha
      simpa using this
    rw [hf]
    rfl

/-- Witness for C6: a log whose lines match no keyword yields the empty sequence. -/
theorem C6_witness :
    ((splitLines "hello world\nline two").all
      (fun l => !(tee_keywords.any (fun kw => strHas (lowerS l) kw)))) = true
    ∧ get_tee_dmesg_lines (.ok "hello world\nline two") = [] :=
  ⟨by decide, C6_dmesg_lines_bounds.2.1 "hello world\nline two" (by decide)⟩

/-- C8: a missing GPU tool yields detected=false, verified=false, mode="unknown",
no model and no error; a successful run yields detected=true with verified/mode
determined exactly by the "Confidential Computing" marker, and the model is taken
from a "Product Name" line as in the H100 example. -/
theorem C8_gpu_inspector (out : String) :
    get_gpu_tee_status (.error .fileNotFound)
      = { gpu_detected := false, gpu_tee_verified := false, nvidia_cc_mode := "unknown",
          gpu_model := none, error := none }
    ∧ (get_gpu_tee_status (.ok out)).gpu_detected = true
    ∧ (get_gpu_tee_status (.ok out)).gpu_tee_verified = strHas out "Confidential Computing"
    ∧ (get_gpu_tee_status (.ok out)).nvidia_cc_mode
        = (if strHas out "Confidential Computing" then "on" else "off")
    ∧ get_gpu_tee_status (.ok "Confidential Computing\nProduct Name: H100")
      = { gpu_detected := true, gpu_tee_verified := true, nvidia_cc_mode := "on",
          gpu_model := some "H100", error := none } :=
  ⟨rfl, rfl, rfl, rfl, by decide⟩

/-- Counterexample to C9 as stated: on a successful tool run whose "Product Name"
line has no colon, the inspector records an error string (the caught IndexError)
while the detected flag is true, not false. -/
theorem C9_counterexample :
    (get_gpu_tee_status (.ok "Product Name H100")).error = some "list index out of range"
    ∧ (get_gpu_tee_status (.ok "Product Name H100")).gpu_detected = true
    ∧ ¬((get_gpu_tee_status (.ok "Product Name H100")).gpu_detected = false) :=
  ⟨by decide, rfl, by decide⟩

/-- C9 (amended): for every failure of the GPU tool invocation itself other than
tool-not-found, the result records the error string and the detected flag remains
false. -/
theorem C9_amended_invocation_failure (m : String) :
    get_gpu_tee_status (.error (.otherExc m))
      = { gpu_detected := false, gpu_tee_verified := false, nvidia_cc_mode := "unknown",
          gpu_model := none, error := some m } :=
  rfl

/-- C10: whenever the GPU inspector reports detected=true but extracted no model
name, the composed response's gpu field is the literal "NVIDIA-GPU". -/
theorem C10_gpu_default_name (pIn lIn vIn : Except String String) (env : Option String)
    (aIn : Except String AzureDoc) (tIn : Except TpmFailure String)
    (gIn : Except GpuErr String) (ts : String)
    (h1 : (get_gpu_tee_status gIn).gpu_detected = true)
    (h2 : (get_gpu_tee_status gIn).gpu_model = none) :
    (handle_attestation pIn lIn vIn env aIn tIn gIn ts).2.gpu = some "NVIDIA-GPU" := by
  simp [handle_attestation, h1, h2]

/-- Witness for C10: a successful tool run without a "Product Name" line gives
detected=true, no model, and the composed gpu field "NVIDIA-GPU". -/
theorem C10_witness :
    (get_gpu_tee_status (.ok "")).gpu_detected = true
    ∧ (get_gpu_tee_status (.ok "")).gpu_model = none
    ∧ (handle_attestation (.ok "") (.ok "") (.ok "") none (.error "e")
        (.error .fileNotFound) (.ok "") "t").2.gpu = some "NVIDIA-GPU" :=
  ⟨rfl, rfl, C10_gpu_default_name _ _ _ _ _ _ _ _ rfl rfl⟩

theorem strLen_data (s : String) : s.length = s.data.length := rfl

theorem strData_append (s t : String) : (s ++ t).data = s.data ++ t.data := rfl

theorem intel_rule_ci (s : String) :
    (strHas s "Intel TDX" || strHas (lowerS s) "tdx") = strHas (lowerS s) "tdx" := by
  cases h : strHas s "Intel TDX" with
  | false => rw [Bool.false_or]
  | true =>
    have h2 := hasSub_map Char.toLower "Intel TDX".data s.data h
    rw [show "Intel TDX".data.map Char.toLower = "intel tdx".data from by decide] at h2
    have h4 : strHas (lowerS s) "tdx" = true :=
      hasSub_of_decomp "intel ".data "tdx".data [] "intel tdx".data
        (s.data.map Char.toLower) h2 (by decide)
    rw [h4, Bool.true_or]

theorem sev_rule_ci (s : String) :
    (strHas s "SEV-SNP" || strHas (lowerS s) "sev") = strHas (lowerS s) "sev" := by
  cases h : strHas s "SEV-SNP" with
  | false => rw [Bool.false_or]
  | true =>
    have h2 := hasSub_map Char.toLower "SEV-SNP".data s.data h
    rw [show "SEV-SNP".data.map Char.toLower = "sev-snp".data from by decide] at h2
    have h4 : strHas (lowerS s) "sev" = true :=
      hasSub_of_decomp [] "sev".data "-snp".data "sev-snp".data
        (s.data.map Char.toLower) h2 (by decide)
    rw [h4, Bool.true_or]

/-- Counterexample to C3 as stated: the input "Memory encryption" matches the
claim's case-insensitive "Memory Encryption" rule (and no earlier rule), so the
claim prescribes "AMD-SEV-SNP", yet the detector returns "Unknown" — its
"Memory Encryption" test is case-sensitive. -/
theorem C3_counterexample :
    get_tee_platform (.ok "Memory encryption") = "Unknown"
    ∧ strHas (lowerS "Memory encryption") "memory encryption" = true
    ∧ strHas (lowerS "Memory encryption") "tdx" = false
    ∧ strHas (lowerS "Memory encryption") "sev" = false
    ∧ ¬(("Unknown" : String) = "AMD-SEV-SNP") :=
  ⟨by decide, by decide, by decide, by decide, by decide⟩

/-- C3 (amended): the detector searches in priority order — any case-insensitive
occurrence of "tdx" (hence also "Intel TDX") yields Intel-TDX; otherwise a
case-insensitive "sev" (hence also "SEV-SNP") yields AMD-SEV-SNP; otherwise a
case-SENSITIVE "Memory Encryption" yields AMD-SEV-SNP; otherwise, or when the log
could not be read, "Unknown". -/
theorem C3_amended_platform_rules (input : Except String String) :
    get_tee_platform input =
      (match input with
       | .error _ => "Unknown"
       | .ok s =>
         if strHas (lowerS s) "tdx" then "Intel-TDX"
         else if strHas (lowerS s) "sev" then "AMD-SEV-SNP"
         else if strHas s "Memory Encryption" then "AMD-SEV-SNP"
         else "Unknown") := by
  cases input with
  | error e => rfl
  | ok s => simp only [get_tee_platform, intel_rule_ci, sev_rule_ci]

/-- C4: for every fetched attestation document the returned signature never
exceeds 203 characters; a signature field longer than 200 characters is cut to its
first 200 characters with "..." appended (total length 203), and one of length at
most 200 is returned unchanged. -/
theorem C4_signature_truncation (d : AzureDoc) :
    (azureSig (get_azure_attestation (.ok d))).length ≤ 203
    ∧ ((d.signature.getD "").length > 200 →
        azureSig (get_azure_attestation (.ok d))
          = (⟨(d.signature.getD "").data.take 200⟩ : String) ++ "..."
        ∧ (azureSig (get_azure_attestation (.ok d))).length = 203)
    ∧ ((d.signature.getD "").length ≤ 200 →
        azureSig (get_azure_attestation (.ok d)) = d.signature.getD "") := by
  have hred : azureSig (get_azure_attestation (.ok d))
      = (if (d.signature.getD "").length > 200
         then (⟨(d.signature.getD "").data.take 200⟩ : String) ++ "..."
         else d.signature.getD "") := rfl
  by_cases h : (d.signature.getD "").length > 200
  · have h' : 200 ≤ (d.signature.getD "").data.length := by
      rw [strLen_data] at h
      omega
    have h3 : ("..." : String).data.length = 3 := by decide
    have hlen : ((⟨(d.signature.getD "").data.take 200⟩ : String) ++ "...").length = 203 := by
      rw [strLen_data, strData_append, List.length_append, List.length_take, h3,
        Nat.min_eq_left h']
    refine ⟨?_, fun _ => ⟨by rw [hred, if_pos h], by rw [hred, if_pos h, hlen]⟩,
      fun hle => absurd h (by omega)⟩
    rw [hred, if_pos h, hlen]
  · have hle : (d.signature.getD "").length ≤ 200 := Nat.not_lt.mp h
    refine ⟨?_, fun hgt => absurd hgt h, fun _ => by rw [hred, if_neg h]⟩
    rw [hred, if_neg h]
    omega

set_option maxRecDepth 4000 in
/-- Witness for C4: a 250-character signature comes back with length 203, and a
150-character signature comes back unchanged. -/
theorem C4_witness :
    ((doc250.signature.getD "").length > 200
      ∧ (azureSig (get_azure_attestation (.ok doc250))).length = 203)
    ∧ ((doc150.signature.getD "").length ≤ 200
      ∧ azureSig (get_azure_attestation (.ok doc150)) = doc150.signature.getD "") :=
  ⟨⟨by decide, ((C4_signature_truncation doc250).2.1 (by decide)).2⟩,
   ⟨by decide, (C4_signature_truncation doc150).2.2 (by decide)⟩⟩

/-- Counterexample to C7 as stated: on the line "0: 0xAB:7" the claim prescribes
the value "0xAB:7" (everything after the first colon, trimmed), but the parser
stores "0xAB" — it takes only the segment between the first and second colons. -/
theorem C7_counterexample :
    get_tpm_pcr_values (.ok "0: 0xAB:7") = [("0", "0xAB")]
    ∧ claimedTpmValue "0: 0xAB:7" = "0xAB:7"
    ∧ ¬(("0xAB" : String) = "0xAB:7") :=
  ⟨by decide, by decide, by decide⟩

/-- C7 (amended): a line contributes a register entry iff it contains both a colon
and "0x"; such a line is stripped and split on every colon, the first segment
(trimmed) giving the label and the second segment — the text between the first and
second colons, trimmed — giving the value; two well-formed `N: 0xHEX` lines yield
exactly those two entries and no error key. -/
theorem C7_amended_parse_rules :
    (∀ line : String, (parse_pcr_line line).isSome = (strHas line ":" && strHas line "0x"))
    ∧ (∀ (line k v : String) (rest : List String),
        strHas line ":" = true → strHas line "0x" = true →
        splitColon (stripS line) = k :: v :: rest →
        parse_pcr_line line = some (stripS k, stripS v))
    ∧ get_tpm_pcr_values (.ok "0: 0xAA\n1: 0xBB") = [("0", "0xAA"), ("1", "0xBB")] := by
  refine ⟨?_, ?_, by decide⟩
  · intro line
    by_cases hcond : (strHas line ":" && strHas line "0x") = true
    · have hboth : strHas line ":" = true ∧ strHas line "0x" = true := by
        simpa [Bool.and_eq_true] using hcond
      have hcolon : strHas line ":" = true := hboth.1
      have hmem : ':' ∈ line.data := (hasSub_singleton ':' line.data).mp hcolon
      have hmem2 : ':' ∈ pyStrip line.data := mem_pyStrip ':' (by decide) line.data hmem
      obtain ⟨k, v, rest, hs⟩ := splitChar_two_of_mem ':' (pyStrip line.data) hmem2
      have hsplit : splitColon (stripS line) = ⟨k⟩ :: ⟨v⟩ :: rest.map String.mk := by
        simp [splitColon, stripS, hs]
      simp [parse_pcr_line, hcond, hsplit]
    · rw [Bool.not_eq_true] at hcond
      simp [parse_pcr_line, hcond]
  · intro line k v rest h1 h2 h3
    simp [parse_pcr_line, h1, h2, h3]

/-- Witness for C7 (amended): the line "2 : 0x0C" splits into "2 " and " 0x0C" and
parses to the trimmed entry ("2", "0x0C"). -/
theorem C7_witness :
    strHas "2 : 0x0C" ":" = true ∧ strHas "2 : 0x0C" "0x" = true
    ∧ splitColon (stripS "2 : 0x0C") = ["2 ", " 0x0C"]
    ∧ parse_pcr_line "2 : 0x0C" = some ("2", "0x0C") :=
  ⟨by decide, by decide, by decide,
   C7_amended_parse_rules.2.1 "2 : 0x0C" "2 " " 0x0C" [] (by decide) (by decide) (by decide)⟩

end Attestation
